import Mathlib

/-!
Verification of the budgeting application's data/persistence layer
(`budget.py`): `Expense`, `BudgetCategory`, `BudgetManager`, their JSON
serialization, and the savings-progress computation.

Python floats are modelled as rationals (`ℚ`); the persisted JSON document
is modelled by the inductive `JsonVal`; the on-disk file by `FileState`
(missing, unreadable/syntactically malformed, or parsed content).
Python methods that mutate and may raise are modelled as functions
returning the new state paired with `Option String` (the raised message,
`none` on success), so that mutations surviving an exception are visible.
-/

namespace Budget

/-- ASCII model of the whitespace characters removed by Python's
`str.strip()` (space and `\t\n\x0b\x0c\r`). -/
def pyIsSpace (c : Char) : Bool :=
  decide (c.toNat = 32 ∨ (9 ≤ c.toNat ∧ c.toNat ≤ 13))

/-- Generic strip: drop leading and trailing elements satisfying `p`. -/
def stripAux {α : Type} (p : α → Bool) (l : List α) : List α :=
  ((l.dropWhile p).reverse.dropWhile p).reverse

/-- Model of Python's `str.strip()` on the character list of a string. -/
def stripList (l : List Char) : List Char :=
  stripAux pyIsSpace l

/-- Model of `category_name.strip().lower()` in `BudgetManager.add_expense`
(ASCII lowering via `Char.toLower`, which maps `A`-`Z` to `a`-`z`). -/
def sanitize (s : String) : String :=
  ⟨(stripList s.data).map Char.toLower⟩

/-- An expense record: `Expense.__init__` stores amount, description, date. -/
structure Expense where
  amount : ℚ
  description : String
  date : String
deriving DecidableEq

/-- `Expense.__init__`: raises `ValueError` when `amount <= 0`, otherwise
stores the three fields unchanged. -/
def Expense.init (amount : ℚ) (description date : String) : Except String Expense :=
  if amount ≤ 0 then .error "Expense amount must be positive"
  else .ok ⟨amount, description, date⟩

/-- The JSON documents produced by `json.dump` / consumed by `json.load`. -/
inductive JsonVal where
  | num (q : ℚ)
  | str (s : String)
  | arr (items : List JsonVal)
  | obj (fields : List (String × JsonVal))

/-- Python dict lookup `d[key]` / `d.get(key)` on a JSON object
(insertion-ordered association list with unique keys). -/
def jsonGet : List (String × JsonVal) → String → Option JsonVal
  | [], _ => none
  | (k, v) :: rest, key => if k = key then some v else jsonGet rest key

/-- `data.get(key, default)` read into a numeric field of the manager.
A missing key yields the default.  (Python would store a non-number value
unchanged, deferring any type error to a later use; the typed model
rejects it here instead; no theorem relies on that branch.) -/
def getNumD (v : Option JsonVal) (dflt : ℚ) : Except String ℚ :=
  match v with
  | none => .ok dflt
  | some (.num q) => .ok q
  | some _ => .error "TypeError"

/-- `Expense.to_dict`: the three-field record. -/
def Expense.to_dict (e : Expense) : JsonVal :=
  .obj [("amount", .num e.amount), ("description", .str e.description),
        ("date", .str e.date)]

/-- `Expense.from_dict`: reads `data['amount']`, `data['description']`,
`data['date']` (raising `KeyError` when absent) and reconstructs through the
validating constructor `Expense.init`.  (Python would accept a non-string
description or date unchanged; the typed model rejects those; no theorem
relies on that branch.  A non-numeric amount raises in Python too, at the
`amount <= 0` comparison.) -/
def Expense.from_dict (data : JsonVal) : Except String Expense :=
  match data with
  | .obj fields =>
    match jsonGet fields "amount", jsonGet fields "description",
          jsonGet fields "date" with
    | some (.num a), some (.str d), some (.str dt) => Expense.init a d dt
    | _, _, _ => .error "KeyError"
  | _ => .error "TypeError"

/-- A budget category: a name and an insertion-ordered list of expenses. -/
structure BudgetCategory where
  name : String
  expenses : List Expense
deriving DecidableEq

/-- `BudgetCategory.__init__`: named, with an empty expense list. -/
def BudgetCategory.init (name : String) : BudgetCategory :=
  ⟨name, []⟩

/-- `BudgetCategory.add_expense`: constructs an `Expense` (propagating its
failure, in which case the category is unchanged) and appends it. -/
def BudgetCategory.add_expense (c : BudgetCategory) (amount : ℚ)
    (description date : String) : BudgetCategory × Option String :=
  match Expense.init amount description date with
  | .error e => (c, some e)
  | .ok exp => (⟨c.name, c.expenses ++ [exp]⟩, none)

/-- `BudgetCategory.total_expenses`: Python's `sum(...)`, a left fold
starting from `0` over the expenses' amounts. -/
def BudgetCategory.total_expenses (c : BudgetCategory) : ℚ :=
  c.expenses.foldl (fun acc e => acc + e.amount) 0

/-- `BudgetCategory.to_dict`: name plus serialized expense list. -/
def BudgetCategory.to_dict (c : BudgetCategory) : JsonVal :=
  .obj [("name", .str c.name),
        ("expenses", .arr (c.expenses.map Expense.to_dict))]

/-- A Python list comprehension over fallible element construction: the
first raised error aborts the whole traversal. -/
def mapE {α β : Type} (f : α → Except String β) : List α → Except String (List β)
  | [] => .ok []
  | x :: xs =>
    match f x with
    | .error e => .error e
    | .ok y =>
      match mapE f xs with
      | .error e => .error e
      | .ok ys => .ok (y :: ys)

/-- `BudgetCategory.from_dict`: reads `data['name']` (raising `KeyError`
when absent), then rebuilds every expense of `data.get('expenses', [])`
through `Expense.from_dict`.  (Python would accept a non-string name
unchanged; the typed model rejects it; no theorem relies on that branch.) -/
def BudgetCategory.from_dict (data : JsonVal) : Except String BudgetCategory :=
  match data with
  | .obj fields =>
    match jsonGet fields "name" with
    | some (.str n) =>
      match (jsonGet fields "expenses").getD (.arr []) with
      | .arr items =>
        match mapE Expense.from_dict items with
        | .error e => .error e
        | .ok es => .ok ⟨n, es⟩
      | _ => .error "TypeError"
    | some _ => .error "TypeError"
    | none => .error "KeyError"
  | _ => .error "TypeError"

/-- The manager's state: income, savings goal, and the insertion-ordered
mapping from normalized category name to `BudgetCategory`. -/
structure BudgetManager where
  income : ℚ
  savings_goal : ℚ
  categories : List (String × BudgetCategory)
deriving DecidableEq

/-- Dict membership/lookup `self.categories[key]` on the category mapping. -/
def findCat : List (String × BudgetCategory) → String → Option BudgetCategory
  | [], _ => none
  | (k, c) :: rest, key => if k = key then some c else findCat rest key

/-- In-place replacement of the category stored under `key`. -/
def setCat : List (String × BudgetCategory) → String → BudgetCategory →
    List (String × BudgetCategory)
  | [], _, _ => []
  | (k, c) :: rest, key, c2 =>
    if k = key then (k, c2) :: rest else (k, c) :: setCat rest key c2

/-- `BudgetManager.set_income`: raises `ValueError` when `amount < 0`
(leaving the state unchanged), otherwise overwrites the stored income. -/
def BudgetManager.set_income (m : BudgetManager) (amount : ℚ) :
    BudgetManager × Option String :=
  if amount < 0 then (m, some "Income cannot be negative")
  else (⟨amount, m.savings_goal, m.categories⟩, none)

/-- `BudgetManager.set_savings_goal`: raises `ValueError` when `amount < 0`
(leaving the state unchanged), otherwise overwrites the stored goal. -/
def BudgetManager.set_savings_goal (m : BudgetManager) (amount : ℚ) :
    BudgetManager × Option String :=
  if amount < 0 then (m, some "Savings goal cannot be negative")
  else (⟨m.income, amount, m.categories⟩, none)

/-- `BudgetManager.add_expense`: sanitizes the category name, inserts a
fresh empty category when the key is absent, then delegates to
`BudgetCategory.add_expense` on the stored category (whose raised error, if
any, leaves the freshly inserted category in place).  The `none` branch of
the second lookup is unreachable: the key was just ensured present. -/
def BudgetManager.add_expense (m : BudgetManager) (category_name : String)
    (amount : ℚ) (description date : String) : BudgetManager × Option String :=
  let key := sanitize category_name
  let cats :=
    if (findCat m.categories key).isSome then m.categories
    else m.categories ++ [(key, BudgetCategory.init key)]
  match findCat cats key with
  | none => (⟨m.income, m.savings_goal, cats⟩, some "KeyError")
  | some c =>
    let r := c.add_expense amount description date
    (⟨m.income, m.savings_goal, setCat cats key r.1⟩, r.2)

/-- `BudgetManager.total_expenses`: Python's `sum(...)` over every
category's total, a left fold starting from `0`. -/
def BudgetManager.total_expenses (m : BudgetManager) : ℚ :=
  m.categories.foldl (fun acc p => acc + p.2.total_expenses) 0

/-- The record returned by `progress_toward_goal`. -/
structure Progress where
  on_track : Bool
  current_savings : ℚ
  needed : ℚ
deriving DecidableEq

/-- `BudgetManager.progress_toward_goal`: savings, on-track flag (`>=`),
and the clamped shortfall (`needed if needed > 0 else 0`). -/
def BudgetManager.progress_toward_goal (m : BudgetManager) : Progress :=
  let total_exp := m.total_expenses
  let current_savings := m.income - total_exp
  let needed := m.savings_goal - current_savings
  ⟨decide (current_savings ≥ m.savings_goal), current_savings,
   if needed > 0 then needed else 0⟩

/-- `BudgetManager.save_data`: the JSON document written to the data file
(the surrounding file write may raise `IOError`, which is re-raised; the
document's content is what the round-trip property is about). -/
def BudgetManager.save_data (m : BudgetManager) : JsonVal :=
  .obj [("income", .num m.income), ("savings_goal", .num m.savings_goal),
        ("categories", .obj (m.categories.map (fun p => (p.1, p.2.to_dict))))]

/-- The persisted data file as `load_data` can encounter it: absent,
present but unreadable or not syntactically valid JSON (`IOError` /
`json.JSONDecodeError`, both caught), or parsed JSON content. -/
inductive FileState where
  | missing
  | malformed
  | json (v : JsonVal)

/-- The per-category body of the dict comprehension in `load_data`. -/
def loadCatPair (p : String × JsonVal) : Except String (String × BudgetCategory) :=
  match BudgetCategory.from_dict p.2 with
  | .error e => .error e
  | .ok c => .ok (p.1, c)

/-- `BudgetManager.load_data`: a missing file returns early; an unreadable
or syntactically malformed file is caught (`IOError`/`JSONDecodeError`) and
leaves the prior fields; parsed JSON is read with `data.get(...)` defaults,
rebuilding every category through `BudgetCategory.from_dict` — whose
`KeyError`/`ValueError` failures are NOT caught and propagate.  (Python
assigns income and savings_goal before parsing categories, so a failure
there leaves them partially assigned; the constructor never catches that
failure, so the partially mutated object is never observable, and the model
reports the error alone.) -/
def BudgetManager.load_data (m : BudgetManager) (fs : FileState) :
    Except String BudgetManager :=
  match fs with
  | .missing => .ok m
  | .malformed => .ok m
  | .json (.obj fields) =>
    match getNumD (jsonGet fields "income") 0,
          getNumD (jsonGet fields "savings_goal") 0 with
    | .ok income, .ok goal =>
      match (jsonGet fields "categories").getD (.obj []) with
      | .obj catFields =>
        match mapE loadCatPair catFields with
        | .error e => .error e
        | .ok cats => .ok ⟨income, goal, cats⟩
      | _ => .error "AttributeError"
    | .error e, _ => .error e
    | _, .error e => .error e
  | .json _ => .error "AttributeError"

/-- `BudgetManager.__init__`: zero-valued defaults, then `load_data()`. -/
def BudgetManager.init (fs : FileState) : Except String BudgetManager :=
  BudgetManager.load_data ⟨0, 0, []⟩ fs

/-- The spec's scenario state: income 3000, goal 1000, rent 1200 and
groceries 1000, built through the manager's own operations. -/
def scenario3 : BudgetManager :=
  let m0 : BudgetManager := ⟨0, 0, []⟩
  let m1 := (m0.set_income 3000).1
  let m2 := (m1.set_savings_goal 1000).1
  let m3 := (m2.add_expense "rent" 1200 "Monthly rent" "2025-10-01").1
  (m3.add_expense "groceries" 1000 "Food" "2025-10-02").1

/-- A persisted file whose content is valid JSON of the right shape except
that one stored expense has amount 0 — `Expense.__init__` raises
`ValueError` on it during load, and `load_data` does not catch that. -/
def corruptContent : JsonVal :=
  .obj [("income", .num 100), ("savings_goal", .num 50),
        ("categories", .obj
          [("rent", .obj
            [("name", .str "rent"),
             ("expenses", .arr
               [.obj [("amount", .num 0), ("description", .str "bad"),
                      ("date", .str "2025-01-01")]])])])]

/- ===================== helper lemmas ===================== -/

/-- A left fold of additions equals the starting value plus the mapped sum. -/
theorem foldl_add_eq_sum {α : Type} (f : α → ℚ) (l : List α) (acc : ℚ) :
    l.foldl (fun a x => a + f x) acc = acc + (l.map f).sum := by
  induction l generalizing acc with
  | nil => simp
  | cons x xs ih => simp [ih, add_assoc]

theorem total_expenses_eq_sum (c : BudgetCategory) :
    c.total_expenses = (c.expenses.map (fun e => e.amount)).sum := by
  unfold BudgetCategory.total_expenses
  rw [foldl_add_eq_sum (fun e => e.amount) c.expenses 0, zero_add]

theorem manager_total_eq_sum (m : BudgetManager) :
    m.total_expenses = (m.categories.map (fun p => p.2.total_expenses)).sum := by
  unfold BudgetManager.total_expenses
  rw [foldl_add_eq_sum (fun p => p.2.total_expenses) m.categories 0, zero_add]

theorem dropWhile_cons_eq {α : Type} (p : α → Bool) (x : α) (xs : List α) :
    (x :: xs).dropWhile p = if p x then xs.dropWhile p else x :: xs := by
  cases h : p x <;> simp [List.dropWhile, h]

theorem dropWhile_idem {α : Type} (p : α → Bool) (l : List α) :
    (l.dropWhile p).dropWhile p = l.dropWhile p := by
  induction l with
  | nil => rfl
  | cons x xs ih =>
    rw [dropWhile_cons_eq]
    by_cases h : p x = true
    · rw [if_pos h]
      exact ih
    · rw [if_neg h, dropWhile_cons_eq, if_neg h]

theorem dropWhile_head_false {α : Type} (p : α → Bool) (l : List α) :
    ∀ (x : α) (xs : List α), l.dropWhile p = x :: xs → p x = false := by
  induction l with
  | nil =>
    intro x xs h
    simp at h
  | cons y ys ih =>
    intro x xs h
    rw [dropWhile_cons_eq] at h
    cases hy : p y with
    | true =>
      rw [if_pos hy] at h
      exact ih x xs h
    | false =>
      rw [if_neg (by simp [hy])] at h
      injection h with h1 h2
      rw [← h1]
      exact hy

theorem dropWhile_eq_drop_append {α : Type} (p : α → Bool) (l : List α) :
    ∃ t, t ++ l.dropWhile p = l := by
  induction l with
  | nil => exact ⟨[], rfl⟩
  | cons x xs ih =>
    rw [dropWhile_cons_eq]
    by_cases h : p x = true
    · rw [if_pos h]
      obtain ⟨t, ht⟩ := ih
      exact ⟨x :: t, by rw [List.cons_append, ht]⟩
    · rw [if_neg h]
      exact ⟨[], rfl⟩

theorem stripAux_dropWhile_fix {α : Type} (p : α → Bool) (l : List α) :
    (stripAux p l).dropWhile p = stripAux p l := by
  unfold stripAux
  cases hzr : ((l.dropWhile p).reverse.dropWhile p).reverse with
  | nil => simp
  | cons x xs =>
    obtain ⟨t, ht⟩ := dropWhile_eq_drop_append p (l.dropWhile p).reverse
    have hL2 : ((l.dropWhile p).reverse.dropWhile p).reverse ++ t.reverse = l.dropWhile p := by
      rw [← List.reverse_append, ht, List.reverse_reverse]
    rw [hzr, List.cons_append] at hL2
    have hx : p x = false := dropWhile_head_false p l x (xs ++ t.reverse) hL2.symm
    rw [dropWhile_cons_eq, if_neg (by simp [hx])]

theorem stripAux_idem {α : Type} (p : α → Bool) (l : List α) :
    stripAux p (stripAux p l) = stripAux p l := by
  have hA := stripAux_dropWhile_fix p l
  unfold stripAux at hA ⊢
  rw [hA, List.reverse_reverse, dropWhile_idem]

theorem dropWhile_map {α : Type} (f : α → α) (p : α → Bool)
    (hpf : ∀ c, p (f c) = p c) (l : List α) :
    (l.map f).dropWhile p = (l.dropWhile p).map f := by
  induction l with
  | nil => rfl
  | cons x xs ih =>
    rw [List.map_cons, dropWhile_cons_eq, dropWhile_cons_eq, hpf]
    by_cases h : p x = true
    · rw [if_pos h, if_pos h, ih]
    · rw [if_neg h, if_neg h, List.map_cons]

theorem stripAux_map {α : Type} (f : α → α) (p : α → Bool)
    (hpf : ∀ c, p (f c) = p c) (l : List α) :
    stripAux p (l.map f) = (stripAux p l).map f := by
  unfold stripAux
  rw [dropWhile_map f p hpf, ← List.map_reverse, dropWhile_map f p hpf,
      ← List.map_reverse]

theorem toNat_ofNat_of_lt {n : Nat} (h : n < 55296) : (Char.ofNat n).toNat = n := by
  have hv : n.isValidChar := Or.inl h
  unfold Char.ofNat
  rw [dif_pos hv]
  simp [Char.ofNatAux, Char.toNat, UInt32.toNat]

theorem toLower_toNat_of_upper (c : Char) (h : 65 ≤ c.toNat ∧ c.toNat ≤ 90) :
    c.toLower.toNat = c.toNat + 32 := by
  show (if c.toNat ≥ 65 ∧ c.toNat ≤ 90 then Char.ofNat (c.toNat + 32) else c).toNat
      = c.toNat + 32
  rw [if_pos ⟨h.1, h.2⟩]
  exact toNat_ofNat_of_lt (by omega)

theorem toLower_eq_self (c : Char) (h : ¬(65 ≤ c.toNat ∧ c.toNat ≤ 90)) :
    c.toLower = c := by
  show (if c.toNat ≥ 65 ∧ c.toNat ≤ 90 then Char.ofNat (c.toNat + 32) else c) = c
  rw [if_neg h]

theorem toLower_idem (c : Char) : c.toLower.toLower = c.toLower := by
  by_cases h : 65 ≤ c.toNat ∧ c.toNat ≤ 90
  · have h1 := toLower_toNat_of_upper c h
    exact toLower_eq_self c.toLower (by omega)
  · rw [toLower_eq_self c h, toLower_eq_self c h]

theorem pyIsSpace_toLower (c : Char) : pyIsSpace c.toLower = pyIsSpace c := by
  by_cases h : 65 ≤ c.toNat ∧ c.toNat ≤ 90
  · have h1 := toLower_toNat_of_upper c h
    unfold pyIsSpace
    rw [h1, decide_eq_decide]
    omega
  · rw [toLower_eq_self c h]

theorem sanitize_idem (s : String) : sanitize (sanitize s) = sanitize s := by
  show String.mk ((stripList ((stripList s.data).map Char.toLower)).map Char.toLower)
      = String.mk ((stripList s.data).map Char.toLower)
  unfold stripList
  rw [stripAux_map Char.toLower pyIsSpace pyIsSpace_toLower, stripAux_idem,
      List.map_map]
  exact congrArg String.mk (List.map_congr_left (fun c _ => toLower_idem c))

theorem findCat_append_right (l : List (String × BudgetCategory)) (k : String)
    (c : BudgetCategory) (h : findCat l k = none) :
    findCat (l ++ [(k, c)]) k = some c := by
  induction l with
  | nil => simp [findCat]
  | cons p rest ih =>
    obtain ⟨pk, pc⟩ := p
    rw [List.cons_append]
    by_cases hk : pk = k
    · subst hk
      simp [findCat] at h
    · simp only [findCat, if_neg hk] at h ⊢
      exact ih h

theorem setCat_self (l : List (String × BudgetCategory)) (k : String)
    (c : BudgetCategory) (h : findCat l k = some c) :
    setCat l k c = l := by
  induction l with
  | nil => rfl
  | cons p rest ih =>
    obtain ⟨pk, pc⟩ := p
    by_cases hk : pk = k
    · simp only [findCat, if_pos hk] at h
      have hc : pc = c := Option.some.inj h
      simp [setCat, hk, hc]
    · simp only [findCat, if_neg hk] at h
      simp [setCat, hk, ih h]

theorem mapE_map_ok {α β : Type} (f : β → Except String α) (g : α → β) (l : List α)
    (h : ∀ x ∈ l, f (g x) = .ok x) : mapE f (l.map g) = .ok l := by
  induction l with
  | nil => rfl
  | cons x xs ih =>
    rw [List.map_cons]
    simp only [mapE]
    rw [h x (List.mem_cons_self x xs),
        ih (fun y hy => h y (List.mem_cons_of_mem x hy))]

theorem from_dict_to_dict (e : Expense) (h : 0 < e.amount) :
    Expense.from_dict e.to_dict = .ok e := by
  have h0 : Expense.from_dict e.to_dict
      = Expense.init e.amount e.description e.date := rfl
  rw [h0]
  unfold Expense.init
  rw [if_neg (not_le.mpr h)]

theorem cat_from_dict_to_dict (c : BudgetCategory)
    (h : ∀ e ∈ c.expenses, 0 < e.amount) :
    BudgetCategory.from_dict c.to_dict = .ok c := by
  have h1 : mapE Expense.from_dict (c.expenses.map Expense.to_dict) = .ok c.expenses :=
    mapE_map_ok Expense.from_dict Expense.to_dict c.expenses
      (fun e he => from_dict_to_dict e (h e he))
  have h0 : BudgetCategory.from_dict c.to_dict
      = (match mapE Expense.from_dict (c.expenses.map Expense.to_dict) with
         | .error e => .error e
         | .ok es => (.ok ⟨c.name, es⟩ : Except String BudgetCategory)) := rfl
  rw [h0, h1]

theorem loadCatPair_ok (p : String × BudgetCategory)
    (h : ∀ e ∈ p.2.expenses, 0 < e.amount) :
    loadCatPair (p.1, p.2.to_dict) = .ok p := by
  have h0 : loadCatPair (p.1, p.2.to_dict)
      = (match BudgetCategory.from_dict p.2.to_dict with
         | .error e => .error e
         | .ok c => (.ok (p.1, c) : Except String (String × BudgetCategory))) := rfl
  rw [h0, cat_from_dict_to_dict p.2 h]

/- ===================== claims ===================== -/

/-- Claim C1: for every manager state whose stored expenses respect the
`Expense` invariant (amount > 0, the invariant construction enforces),
loading the saved JSON document into a fresh manager reproduces the income,
the savings goal, and, for every category, the same expenses (amount,
description, date) in the original insertion order. -/
theorem claim_C1 : ∀ m : BudgetManager,
    (∀ p ∈ m.categories, ∀ e ∈ p.2.expenses, 0 < e.amount) →
    BudgetManager.init (.json m.save_data) = .ok m := by
  intro m h
  have h1 : mapE loadCatPair (m.categories.map (fun p => (p.1, p.2.to_dict)))
      = .ok m.categories :=
    mapE_map_ok loadCatPair (fun p => (p.1, p.2.to_dict)) m.categories
      (fun p hp => loadCatPair_ok p (h p hp))
  have h0 : BudgetManager.init (.json m.save_data)
      = (match mapE loadCatPair (m.categories.map (fun p => (p.1, p.2.to_dict))) with
         | .error e => .error e
         | .ok cats => (.ok ⟨m.income, m.savings_goal, cats⟩ : Except String BudgetManager)) := rfl
  rw [h0, h1]

/-- Claim C1 witness: a concrete two-category state round-trips exactly. -/
theorem claim_C1_witness :
    BudgetManager.init (.json (BudgetManager.mk 10 5
        [("rent", ⟨"rent", [⟨12, "r1", "2025-01-01"⟩]⟩),
         ("food", ⟨"food", [⟨3, "f1", "2025-01-02"⟩, ⟨4, "f2", "2025-01-03"⟩]⟩)]).save_data)
      = .ok ⟨10, 5, [("rent", ⟨"rent", [⟨12, "r1", "2025-01-01"⟩]⟩),
                     ("food", ⟨"food", [⟨3, "f1", "2025-01-02"⟩, ⟨4, "f2", "2025-01-03"⟩]⟩)]⟩ :=
  claim_C1 ⟨10, 5, [("rent", ⟨"rent", [⟨12, "r1", "2025-01-01"⟩]⟩),
                    ("food", ⟨"food", [⟨3, "f1", "2025-01-02"⟩, ⟨4, "f2", "2025-01-03"⟩]⟩)]⟩
    (by decide)

/-- Claim C2, counterexample: the claim says `load_data()` never propagates
a failure for any file content, but a file whose content is valid JSON with
an expense record of amount 0 makes the uncaught `ValueError` from the
validating `Expense` constructor propagate out of `load_data`. -/
theorem claim_C2_counterexample :
    BudgetManager.init (.json corruptContent)
      = .error "Expense amount must be positive" := rfl

/-- Claim C2 as amended: `load_data` absorbs a missing file and an
unreadable or syntactically invalid one (`IOError`/`JSONDecodeError`),
leaving the constructor's zero-valued defaults; but content that parses as
JSON whose structure is invalid — such as an expense record with
amount ≤ 0 — raises an error that is not caught and propagates. -/
theorem claim_C2_amended :
    (∀ m : BudgetManager,
      m.load_data .missing = .ok m ∧ m.load_data .malformed = .ok m)
    ∧ BudgetManager.init .missing = .ok ⟨0, 0, []⟩
    ∧ BudgetManager.init .malformed = .ok ⟨0, 0, []⟩
    ∧ BudgetManager.init (.json corruptContent)
        = .error "Expense amount must be positive" :=
  ⟨fun _ => ⟨rfl, rfl⟩, rfl, rfl, rfl⟩

/-- Claim C5: `BudgetManager.add_expense` normalizes the category name by
trimming whitespace and lowercasing before lookup or creation, so two
additions under names equal up to case and surrounding whitespace end up in
exactly one category whose total is the sum of both amounts; the
normalization is idempotent. -/
theorem claim_C5 :
    (∀ s : String, sanitize (sanitize s) = sanitize s)
    ∧ ∀ (n1 n2 : String) (a1 a2 : ℚ) (d1 d2 t1 t2 : String),
        sanitize n1 = sanitize n2 → 0 < a1 → 0 < a2 →
        ((((BudgetManager.mk 0 0 []).add_expense n1 a1 d1 t1).1.add_expense
              n2 a2 d2 t2).1.categories
            = [(sanitize n1, ⟨sanitize n1, [⟨a1, d1, t1⟩, ⟨a2, d2, t2⟩]⟩)]
          ∧ (((BudgetManager.mk 0 0 []).add_expense n1 a1 d1 t1).1.add_expense
              n2 a2 d2 t2).1.total_expenses = a1 + a2) := by
  refine ⟨sanitize_idem, ?_⟩
  intro n1 n2 a1 a2 d1 d2 t1 t2 hk ha1 ha2
  have hna1 : ¬ a1 ≤ 0 := not_le.mpr ha1
  have hna2 : ¬ a2 ≤ 0 := not_le.mpr ha2
  have h1 : ((BudgetManager.mk 0 0 []).add_expense n1 a1 d1 t1).1
      = ⟨0, 0, [(sanitize n1, ⟨sanitize n1, [⟨a1, d1, t1⟩]⟩)]⟩ := by
    simp [BudgetManager.add_expense, findCat, setCat, BudgetCategory.add_expense,
          BudgetCategory.init, Expense.init, hna1]
  have h2 : (((BudgetManager.mk 0 0 []).add_expense n1 a1 d1 t1).1.add_expense
      n2 a2 d2 t2).1
      = ⟨0, 0, [(sanitize n1, ⟨sanitize n1, [⟨a1, d1, t1⟩, ⟨a2, d2, t2⟩]⟩)]⟩ := by
    rw [h1]
    simp [BudgetManager.add_expense, findCat, setCat, BudgetCategory.add_expense,
          Expense.init, hna2, ← hk]
  rw [h2]
  refine ⟨rfl, ?_⟩
  rw [manager_total_eq_sum]
  simp [total_expenses_eq_sum]

/-- Claim C5 witness: "Groceries" then " GROCERIES " merge into the single
category "groceries" with the sum of both amounts. -/
theorem claim_C5_witness :
    (((BudgetManager.mk 0 0 []).add_expense "Groceries" 5 "d1" "2025-01-01").1.add_expense
        " GROCERIES " 7 "d2" "2025-01-02").1.categories
      = [("groceries", ⟨"groceries", [⟨5, "d1", "2025-01-01"⟩, ⟨7, "d2", "2025-01-02"⟩]⟩)]
    ∧ (((BudgetManager.mk 0 0 []).add_expense "Groceries" 5 "d1" "2025-01-01").1.add_expense
        " GROCERIES " 7 "d2" "2025-01-02").1.total_expenses = 5 + 7 := by
  obtain ⟨hc, ht⟩ := claim_C5.2 "Groceries" " GROCERIES " 5 7 "d1" "d2"
      "2025-01-01" "2025-01-02" (by rfl) (by decide) (by decide)
  refine ⟨?_, ht⟩
  rw [hc]
  rfl

/-- Claim C10 (implicit): `BudgetManager.add_expense` inserts the category
before validating the expense, so for every amount ≤ 0 and every category
name whose normalized form is not yet a key, the failed call leaves a newly
created empty `BudgetCategory` in the mapping, while `total_expenses()` and
the other fields are unchanged. -/
theorem claim_C10 : ∀ (m : BudgetManager) (n : String) (a : ℚ) (d dt : String),
    a ≤ 0 → findCat m.categories (sanitize n) = none →
    (m.add_expense n a d dt).2 = some "Expense amount must be positive"
    ∧ (m.add_expense n a d dt).1.categories
        = m.categories ++ [(sanitize n, BudgetCategory.init (sanitize n))]
    ∧ (m.add_expense n a d dt).1.income = m.income
    ∧ (m.add_expense n a d dt).1.savings_goal = m.savings_goal
    ∧ (m.add_expense n a d dt).1.total_expenses = m.total_expenses := by
  intro m n a d dt ha hfind
  have hfound := findCat_append_right m.categories (sanitize n)
    (BudgetCategory.init (sanitize n)) hfind
  have hres : m.add_expense n a d dt
      = (⟨m.income, m.savings_goal,
          m.categories ++ [(sanitize n, BudgetCategory.init (sanitize n))]⟩,
         some "Expense amount must be positive") := by
    unfold BudgetManager.add_expense
    simp only [hfind, Option.isSome_none, Bool.false_eq_true, if_false, hfound,
               BudgetCategory.add_expense, Expense.init, if_pos ha]
    rw [setCat_self _ _ _ hfound]
  rw [hres]
  refine ⟨rfl, rfl, rfl, rfl, ?_⟩
  show (BudgetManager.mk m.income m.savings_goal
      (m.categories ++ [(sanitize n, BudgetCategory.init (sanitize n))])).total_expenses
      = m.total_expenses
  rw [manager_total_eq_sum, manager_total_eq_sum]
  simp [BudgetCategory.total_expenses, BudgetCategory.init]

/-- Claim C10 witness: adding a zero amount under a fresh name leaves the
raised message, a new empty category, and an unchanged total. -/
theorem claim_C10_witness :
    ((BudgetManager.mk 3 1 []).add_expense " Food " 0 "d" "2025-01-01").2
        = some "Expense amount must be positive"
    ∧ ((BudgetManager.mk 3 1 []).add_expense " Food " 0 "d" "2025-01-01").1.categories
        = [("food", BudgetCategory.init "food")]
    ∧ ((BudgetManager.mk 3 1 []).add_expense " Food " 0 "d" "2025-01-01").1.total_expenses
        = (BudgetManager.mk 3 1 []).total_expenses := by
  obtain ⟨h1, h2, h3, h4, h5⟩ :=
    claim_C10 ⟨3, 1, []⟩ " Food " 0 "d" "2025-01-01" (by decide) (by rfl)
  refine ⟨h1, ?_, h5⟩
  rw [h2]
  rfl

/-- Claim C8: for every `BudgetCategory` and every sequence of contained
expenses, including the empty one, `total_expenses()` equals the arithmetic
sum of the expenses' amounts, with the empty category yielding 0. -/
theorem claim_C8 :
    (∀ c : BudgetCategory,
      c.total_expenses = (c.expenses.map (fun e => e.amount)).sum)
    ∧ ∀ n : String, (BudgetCategory.init n).total_expenses = 0 :=
  ⟨total_expenses_eq_sum, fun _ => rfl⟩

/-- Claim C7: for every manager state, `total_expenses()` equals the sum
over all categories of that category's total (hence the sum of every stored
expense amount), and returns 0 when the category mapping is empty. -/
theorem claim_C7 : ∀ m : BudgetManager,
    m.total_expenses = (m.categories.map (fun p => p.2.total_expenses)).sum
    ∧ m.total_expenses
        = (m.categories.map (fun p => (p.2.expenses.map (fun e => e.amount)).sum)).sum
    ∧ (m.categories = [] → m.total_expenses = 0) := by
  intro m
  refine ⟨manager_total_eq_sum m, ?_, ?_⟩
  · rw [manager_total_eq_sum m]
    exact congrArg List.sum
      (List.map_congr_left fun p _ => total_expenses_eq_sum p.2)
  · intro h
    rw [manager_total_eq_sum m, h]
    rfl

/-- Claim C7 witness: the empty-mapping case at a concrete manager. -/
theorem claim_C7_witness : (BudgetManager.mk 5 2 []).total_expenses = 0 :=
  (claim_C7 ⟨5, 2, []⟩).2.2 rfl

/-- Claim C9: constructing a `BudgetManager` when the persisted data file
does not exist raises no error and yields income 0, savings goal 0, and an
empty category mapping. -/
theorem claim_C9 : BudgetManager.init .missing = .ok ⟨0, 0, []⟩ := rfl

/-- Claim C6: `set_income` fails exactly when the amount is negative (zero
is accepted) and otherwise fully overwrites the stored income, leaving the
other fields alone; `set_savings_goal` has the same failure condition and
overwrite semantics; on failure the state is unchanged. -/
theorem claim_C6 : ∀ (m : BudgetManager) (amount : ℚ),
    ((m.set_income amount).2.isSome ↔ amount < 0)
    ∧ (0 ≤ amount → (m.set_income amount).1 = ⟨amount, m.savings_goal, m.categories⟩)
    ∧ (amount < 0 → (m.set_income amount).1 = m)
    ∧ ((m.set_savings_goal amount).2.isSome ↔ amount < 0)
    ∧ (0 ≤ amount → (m.set_savings_goal amount).1 = ⟨m.income, amount, m.categories⟩)
    ∧ (amount < 0 → (m.set_savings_goal amount).1 = m) := by
  intro m amount
  unfold BudgetManager.set_income BudgetManager.set_savings_goal
  by_cases h : amount < 0
  · simp [h]
  · simp [h]

/-- Claim C6 witness: zero is accepted and overwrites; a negative amount is
rejected and leaves the state unchanged. -/
theorem claim_C6_witness :
    ((BudgetManager.mk 1 2 []).set_income 0).1 = ⟨0, 2, []⟩
    ∧ ((BudgetManager.mk 1 2 []).set_income (-1)).1 = ⟨1, 2, []⟩
    ∧ ((BudgetManager.mk 1 2 []).set_savings_goal (-1)).1 = ⟨1, 2, []⟩ :=
  ⟨(claim_C6 ⟨1, 2, []⟩ 0).2.1 (by decide),
   (claim_C6 ⟨1, 2, []⟩ (-1)).2.2.1 (by decide),
   (claim_C6 ⟨1, 2, []⟩ (-1)).2.2.2.2.2 (by decide)⟩

/-- Claim C4: `Expense` construction fails for every amount ≤ 0 and
succeeds for every amount > 0 with the stored fields equal to the inputs
exactly; `Expense.from_dict` on a three-field record goes through the same
validating constructor, so a persisted record with amount ≤ 0 fails in the
same way as direct construction. -/
theorem claim_C4 : ∀ (a : ℚ) (d dt : String),
    (a ≤ 0 → Expense.init a d dt = .error "Expense amount must be positive")
    ∧ (0 < a → Expense.init a d dt = .ok ⟨a, d, dt⟩)
    ∧ Expense.from_dict
        (.obj [("amount", .num a), ("description", .str d), ("date", .str dt)])
        = Expense.init a d dt := by
  intro a d dt
  refine ⟨fun h => ?_, fun h => ?_, rfl⟩
  · unfold Expense.init
    rw [if_pos h]
  · unfold Expense.init
    rw [if_neg (not_le.mpr h)]

/-- Claim C4 witness: amount 0 is rejected, amount 5 is accepted with the
exact fields, both directly and through `from_dict`. -/
theorem claim_C4_witness :
    Expense.init 0 "x" "2025-01-01" = .error "Expense amount must be positive"
    ∧ Expense.init 5 "x" "2025-01-01" = .ok ⟨5, "x", "2025-01-01"⟩ :=
  ⟨(claim_C4 0 "x" "2025-01-01").1 (by decide),
   (claim_C4 5 "x" "2025-01-01").2.1 (by decide)⟩

/-- Claim C3: `progress_toward_goal()` returns
`current_savings = income − total_expenses()`, `on_track` true exactly when
`current_savings ≥ savings_goal`, and `needed = max 0 (goal − savings)`;
at the boundary `current_savings = savings_goal` it is on track with
`needed = 0`; and in the state income 3000, goal 1000 with expenses 1200
and 1000 it returns total 2200, savings 800, off track, needed 200. -/
theorem claim_C3 :
    (∀ m : BudgetManager,
      m.progress_toward_goal.current_savings = m.income - m.total_expenses
      ∧ (m.progress_toward_goal.on_track = true ↔
          m.income - m.total_expenses ≥ m.savings_goal)
      ∧ m.progress_toward_goal.needed
          = max 0 (m.savings_goal - (m.income - m.total_expenses))
      ∧ (m.income - m.total_expenses = m.savings_goal →
          m.progress_toward_goal.on_track = true
          ∧ m.progress_toward_goal.needed = 0))
    ∧ scenario3.total_expenses = 2200
    ∧ scenario3.progress_toward_goal = ⟨false, 800, 200⟩ := by
  constructor
  · intro m
    unfold BudgetManager.progress_toward_goal
    refine ⟨rfl, by simp, ?_, fun h => ?_⟩
    · by_cases h : m.savings_goal - (m.income - m.total_expenses) > 0
      · simp only [if_pos h]
        exact (max_eq_right h.le).symm
      · simp only [if_neg h]
        exact (max_eq_left (not_lt.mp h)).symm
    · constructor
      · simp [ge_iff_le, h.ge]
      · simp [h]
  · have hcats : scenario3.categories
        = [("rent", ⟨"rent", [⟨1200, "Monthly rent", "2025-10-01"⟩]⟩),
           ("groceries", ⟨"groceries", [⟨1000, "Food", "2025-10-02"⟩]⟩)] := by rfl
    have htot : scenario3.total_expenses = 2200 := by
      rw [manager_total_eq_sum, hcats]
      norm_num [total_expenses_eq_sum]
    have hinc : scenario3.income = 3000 := by rfl
    have hgoal : scenario3.savings_goal = 1000 := by rfl
    refine ⟨htot, ?_⟩
    have hp : scenario3.progress_toward_goal
        = ⟨decide ((3000 : ℚ) - 2200 ≥ 1000), 3000 - 2200,
           if 1000 - ((3000 : ℚ) - 2200) > 0 then 1000 - (3000 - 2200) else 0⟩ := by
      unfold BudgetManager.progress_toward_goal
      rw [hinc, hgoal, htot]
    have h1 : (3000 : ℚ) - 2200 = 800 := by norm_num
    have h2 : ¬ ((800 : ℚ) ≥ 1000) := by norm_num
    have h3 : (1000 : ℚ) - 800 = 200 := by norm_num
    rw [hp, h1, h3, if_pos (by norm_num : (200 : ℚ) > 0), decide_eq_false h2]

/-- Claim C3 witness: at a boundary state (income 100, goal 100, no
expenses) the result is on track with needed 0. -/
theorem claim_C3_witness :
    (BudgetManager.mk 100 100 []).progress_toward_goal.on_track = true
    ∧ (BudgetManager.mk 100 100 []).progress_toward_goal.needed = 0 :=
  (claim_C3.1 ⟨100, 100, []⟩).2.2.2 (by simp [BudgetManager.total_expenses])

end Budget
